import Mathlib

/-!
Shallow embedding of `cluster/node.go` of the nano cluster core: the `Node`
configuration, `Startup`, `initMaster`, `initMember`, `Shutdown`, the four
member-inbound handlers (`HandleRequest` etc.) and `NewMember`.

Side effects (listening, serving, dialing, the registration RPC, component
hooks, launching the acceptor, stopping a server) are recorded as an ordered
event trace; network outcomes that depend on the outside world (listen/dial
success, the master's registration response) come from an explicit `NetEnv`
oracle.  Code of the repository that lives outside `node.go` (the
`LocalHandler` registry) is modelled from the spec and marked as such.
-/

namespace Nano

/-- Mirror of `clusterpb.MemberInfo` as used by `node.go`: a member type tag,
the member's inbound address, and its service names. -/
structure MemberInfo where
  memberType : String
  memberAddr : String
  services : List String
deriving Repr, DecidableEq

/-- Mirror of `cluster.Member`: a topology entry wrapping a `MemberInfo`
plus the `isMaster` flag. -/
structure Member where
  isMaster : Bool
  memberInfo : MemberInfo
deriving Repr, DecidableEq

/-- A hosted component as `Node.Startup` sees it: an identity, the service
names it contributes to `LocalHandler.LocalService`, and the outcome of
`handler.register` for it.  The component's own hooks are opaque. -/
structure Comp where
  id : Nat
  services : List String
  regErr : Option String
deriving Repr, DecidableEq

/-- Configuration fields of `cluster.Node` (the exported fields of the Go
struct). -/
structure Node where
  IsMaster : Bool
  AdvertiseAddr : String
  MemberAddr : String
  ServerAddr : String
  Components : List Comp
  IsWebsocket : Bool
  TSLCertificate : String
  TSLKey : String
deriving Repr, DecidableEq

/-- Oracle for the outside world: whether `net.Listen` succeeds on an
address, whether `rpcClient.getConnArray` can dial an address, and the
master's `Register` response (`none` = the RPC call returned an error). -/
structure NetEnv where
  listenOk : String → Bool
  dialOk : String → Bool
  registerResp : Option (List MemberInfo)

/-- Observable effects of the node lifecycle, in program order. -/
inductive Event where
  | listen (addr : String)
  | serveMaster (addr : String)
  | serveMember (addr : String)
  | dial (addr : String)
  | registerRPC (addr : String)
  | compInit (id : Nat)
  | compAfterInit (id : Nat)
  | compBeforeShutdown (id : Nat)
  | compShutdown (id : Nat)
  | acceptorPlain (addr : String)
  | acceptorWS (addr : String)
  | acceptorWSTLS (addr : String)
  | gracefulStopMaster
deriving Repr, DecidableEq

/-- Component lifecycle hook events. -/
def Event.isCompHook : Event → Bool
  | .compInit _ => true
  | .compAfterInit _ => true
  | .compBeforeShutdown _ => true
  | .compShutdown _ => true
  | _ => false

/-- Network operations: opening a listener, serving on it, dialing a peer,
or performing the registration RPC. -/
def Event.isNetwork : Event → Bool
  | .listen _ => true
  | .serveMaster _ => true
  | .serveMember _ => true
  | .dial _ => true
  | .registerRPC _ => true
  | _ => false

/-- Acceptor-loop launch events. -/
def Event.isAcceptor : Event → Bool
  | .acceptorPlain _ => true
  | .acceptorWS _ => true
  | .acceptorWSTLS _ => true
  | _ => false

/-- Listener-open events (`net.Listen`). -/
def Event.isListen : Event → Bool
  | .listen _ => true
  | _ => false

/-- Modelled from the spec: the `LocalHandler` remote-service registry
(`ServiceRegistry`'s remote entries), a service-name to peer-address map
with last-write-wins insertion; `LocalHandler`'s code is not part of the
source fragment. -/
def insertRemote : List (String × String) → String → String → List (String × String)
  | [], svc, addr => [(svc, addr)]
  | (s, a) :: rest, svc, addr =>
      if s = svc then (s, addr) :: rest else (s, a) :: insertRemote rest svc addr

/-- Modelled from the spec: `LocalHandler.addRemoteService` adds every
service of the announced member as a remote entry attributed to that
member's address. -/
def addRemoteService (reg : List (String × String)) (mi : MemberInfo) :
    List (String × String) :=
  mi.services.foldl (fun r s => insertRemote r s mi.memberAddr) reg

/-- Modelled from the spec: `LocalHandler.initRemoteService` seeds the
remote registry from every member of the registration response. -/
def initRemoteService (reg : List (String × String)) (mis : List MemberInfo) :
    List (String × String) :=
  mis.foldl addRemoteService reg

/-- Modelled from the spec: `LocalHandler.LocalService`, the names of the
services hosted locally, gathered from the registered components. -/
def LocalService (comps : List Comp) : List String :=
  (comps.map Comp.services).flatten

/-- Assoc lookup in the remote registry. -/
def lookupRemote : List (String × String) → String → Option String
  | [], _ => none
  | (s, a) :: rest, svc => if s = svc then some a else lookupRemote rest svc

/-- The mutable node state `Startup` builds: whether the two gRPC server
objects exist (`masterServer`/`memberServer` non-nil) and whether `Serve`
was launched on them, the master's topology member list, the remote
registry, and the rpc client. -/
structure NodeState where
  members : List Member
  masterServer : Bool
  memberServer : Bool
  masterServing : Bool
  memberServing : Bool
  remoteRegistry : List (String × String)
  rpcClient : Bool
deriving Repr, DecidableEq

/-- The state of a standalone node after `Startup`: no cluster wiring. -/
def standaloneState : NodeState :=
  { members := [], masterServer := false, memberServer := false,
    masterServing := false, memberServing := false,
    remoteRegistry := [], rpcClient := false }

/-- The loop in `Startup` registering each component with the handler:
returns the first failing component's error, as the Go loop returns it. -/
def registerComponents : List Comp → Option String
  | [] => none
  | c :: rest =>
      match c.regErr with
      | some e => some e
      | none => registerComponents rest

/-- The node's own topology entry built in `initMaster`. -/
def selfMember (n : Node) : Member :=
  { isMaster := true,
    memberInfo :=
      { memberType := "master", memberAddr := n.MemberAddr,
        services := LocalService n.Components } }

/-- The node state `initMaster` leaves on success: both server objects
exist, only the master one serves, the topology holds the self member. -/
def masterState (n : Node) : NodeState :=
  { members := [selfMember n],
    masterServer := true, memberServer := true,
    masterServing := true, memberServing := false,
    remoteRegistry := [], rpcClient := true }

/-- `Node.initMaster`: listen on `AdvertiseAddr`; on success create both
gRPC servers, launch `Serve` for the master server only, create the rpc
client, and append the node's own `Member` (isMaster, memberType "master",
`MemberAddr`, local services) to the topology.  No listener is opened on
`MemberAddr` and the member server is never served. -/
def initMaster (n : Node) (env : NetEnv) : List Event × Except String NodeState :=
  if env.listenOk n.AdvertiseAddr then
    ([Event.listen n.AdvertiseAddr, Event.serveMaster n.AdvertiseAddr],
     Except.ok (masterState n))
  else
    ([Event.listen n.AdvertiseAddr], Except.error "listen failed")

/-- The validity test of `Node.initMember`, over the string's character
list: the address is invalid when it is empty (`s == ""`), has no colon
(`!strings.Contains(s, ":")`), or the part before the first colon —
`strings.SplitN(s, ":", 2)[0]`, i.e. the longest colon-free prefix — is
empty. -/
def memberAddrInvalid (s : String) : Bool :=
  s.data = [] || !(s.data.contains ':') || s.data.takeWhile (fun c => c ≠ ':') = []

/-- The node state `initMember` leaves on success: only the member server
exists and serves; the remote registry is seeded from the registration
response. -/
def memberState (members : List MemberInfo) : NodeState :=
  { members := [], masterServer := false, memberServer := true,
    masterServing := false, memberServing := true,
    remoteRegistry := initRemoteService [] members,
    rpcClient := true }

/-- `Node.initMember`: validate `MemberAddr` before any network operation;
then listen on `MemberAddr` and serve the member server on it; then dial
the master at `AdvertiseAddr` and call the `Register` RPC; on success seed
the remote registry from the returned member list. -/
def initMember (n : Node) (env : NetEnv) : List Event × Except String NodeState :=
  if memberAddrInvalid n.MemberAddr then
    ([], Except.error ("member address (" ++ n.MemberAddr ++ ") invalid in cluster mode"))
  else if !(env.listenOk n.MemberAddr) then
    ([Event.listen n.MemberAddr], Except.error "listen failed")
  else if !(env.dialOk n.AdvertiseAddr) then
    ([Event.listen n.MemberAddr, Event.serveMember n.MemberAddr,
      Event.dial n.AdvertiseAddr],
     Except.error "dial failed")
  else
    match env.registerResp with
    | none =>
        ([Event.listen n.MemberAddr, Event.serveMember n.MemberAddr,
          Event.dial n.AdvertiseAddr, Event.registerRPC n.AdvertiseAddr],
         Except.error "register rpc failed")
    | some members =>
        ([Event.listen n.MemberAddr, Event.serveMember n.MemberAddr,
          Event.dial n.AdvertiseAddr, Event.registerRPC n.AdvertiseAddr],
         Except.ok (memberState members))

/-- The role branch of `Startup`: master bootstrap, member bootstrap when an
advertise address is configured, otherwise standalone (no cluster wiring). -/
def bootstrap (n : Node) (env : NetEnv) : List Event × Except String NodeState :=
  if n.IsMaster then initMaster n env
  else if n.AdvertiseAddr ≠ "" then initMember n env
  else ([], Except.ok standaloneState)

/-- The `Init` hook events over a component list, in order. -/
def initEvents (cs : List Comp) : List Event :=
  cs.map (fun c => Event.compInit c.id)

/-- The `AfterInit` hook events over a component list, in order. -/
def afterInitEvents (cs : List Comp) : List Event :=
  cs.map (fun c => Event.compAfterInit c.id)

/-- The acceptor `Startup` launches, literally the Go selection: WebSocket
branch when `IsWebsocket`, and within it TLS when `len(TSLCertificate) != 0`
(the key path is not consulted); otherwise the plain stream-socket loop. -/
def acceptorEvent (n : Node) : Event :=
  if n.IsWebsocket then
    if n.TSLCertificate.length ≠ 0 then Event.acceptorWSTLS n.ServerAddr
    else Event.acceptorWS n.ServerAddr
  else Event.acceptorPlain n.ServerAddr

/-- `Node.Startup`: the master advertise-address check, component
registration, the role branch, the `Init` then `AfterInit` hook loops, and
the launch of exactly one acceptor; any earlier error is returned as is. -/
def Startup (n : Node) (env : NetEnv) : List Event × Except String NodeState :=
  if n.IsMaster && n.AdvertiseAddr = "" then
    ([], Except.error "advertise address cannot be empty in master node")
  else
    match registerComponents n.Components with
    | some e => ([], Except.error e)
    | none =>
        match bootstrap n env with
        | (ev, Except.error e) => (ev, Except.error e)
        | (ev, Except.ok st) =>
            (ev ++ initEvents n.Components ++ afterInitEvents n.Components
                ++ [acceptorEvent n],
             Except.ok st)

/-- `Node.Shutdown`: `BeforeShutdown` hooks in reverse registration order,
then `Shutdown` hooks in reverse registration order, then a graceful stop
of the master server when it is non-nil; nothing else is touched. -/
def Shutdown (n : Node) (st : NodeState) : List Event × NodeState :=
  (n.Components.reverse.map (fun c => Event.compBeforeShutdown c.id)
     ++ n.Components.reverse.map (fun c => Event.compShutdown c.id)
     ++ (if st.masterServer then [Event.gracefulStopMaster] else []),
   if st.masterServer then { st with masterServing := false } else st)

/-- An opaque inbound envelope for the four member-inbound handlers. -/
structure Envelope where
  payload : String
deriving Repr, DecidableEq

/-- Outcome of an inbound handler call: a reply carrying an optional error
field, or a panic that escapes the handler. -/
inductive HandleOutcome where
  | replied (errField : Option String)
  | panicked (msg : String)
deriving Repr, DecidableEq

/-- `Node.HandleRequest`, literally: `panic("implement me")`. -/
def HandleRequest (_st : NodeState) (_msg : Envelope) : HandleOutcome :=
  HandleOutcome.panicked "implement me"

/-- `Node.HandleNotify`, literally: `panic("implement me")`. -/
def HandleNotify (_st : NodeState) (_msg : Envelope) : HandleOutcome :=
  HandleOutcome.panicked "implement me"

/-- `Node.HandlePush`, literally: `panic("implement me")`. -/
def HandlePush (_st : NodeState) (_msg : Envelope) : HandleOutcome :=
  HandleOutcome.panicked "implement me"

/-- `Node.HandleResponse`, literally: `panic("implement me")`. -/
def HandleResponse (_st : NodeState) (_msg : Envelope) : HandleOutcome :=
  HandleOutcome.panicked "implement me"

/-- Mirror of `clusterpb.NewMemberRequest`. -/
structure NewMemberRequest where
  memberInfo : MemberInfo
deriving Repr, DecidableEq

/-- Mirror of `clusterpb.NewMemberResponse` (an empty message). -/
structure NewMemberResponse where
deriving Repr, DecidableEq

/-- `Node.NewMember`: add the announced member's services to the remote
registry and return an empty response with a nil error (`Except.ok`). -/
def NewMember (st : NodeState) (req : NewMemberRequest) :
    Except String (NodeState × NewMemberResponse) :=
  Except.ok
    ({ st with remoteRegistry := addRemoteService st.remoteRegistry req.memberInfo },
     {})

/-! Structural lemmas about the embedded lifecycle, shared by the claim
theorems below. -/

/-- Every event the role branch emits is a network operation. -/
theorem bootstrap_all_network (n : Node) (env : NetEnv) :
    ((bootstrap n env).1.all Event.isNetwork) = true := by
  unfold bootstrap initMaster initMember
  repeat' split
  all_goals rfl

/-- The acceptor event is an acceptor-loop launch. -/
theorem acceptorEvent_isAcceptor (n : Node) :
    (acceptorEvent n).isAcceptor = true := by
  unfold acceptorEvent
  repeat' split
  all_goals rfl

/-- Inversion of a successful `Startup`: component registration succeeded,
the role branch succeeded with the same state, and the trace is the
branch's events, the `Init` hooks, the `AfterInit` hooks, then the one
acceptor launch. -/
theorem startup_ok_inv (n : Node) (env : NetEnv) (st : NodeState)
    (hok : (Startup n env).2 = Except.ok st) :
    registerComponents n.Components = none ∧
    ∃ ev, bootstrap n env = (ev, Except.ok st) ∧
      Startup n env =
        (ev ++ initEvents n.Components ++ afterInitEvents n.Components
            ++ [acceptorEvent n],
         Except.ok st) := by
  unfold Startup at hok ⊢
  split at hok
  · simp at hok
  · rename_i hcond
    split at hok
    · simp at hok
    · rename_i hreg
      split at hok
      · simp at hok
      · rename_i ev st' heq
        simp only at hok
        cases hok
        refine ⟨hreg, ev, heq, ?_⟩
        simp [hcond, hreg, heq]

/-- A network event is not a component hook. -/
theorem isNetwork_not_isCompHook (e : Event) (h : e.isNetwork = true) :
    e.isCompHook = false := by
  cases e <;> simp_all [Event.isNetwork, Event.isCompHook]

/-- A network event is not an acceptor launch. -/
theorem isNetwork_not_isAcceptor (e : Event) (h : e.isNetwork = true) :
    e.isAcceptor = false := by
  cases e <;> simp_all [Event.isNetwork, Event.isAcceptor]

/-- An acceptor launch is not a component hook. -/
theorem isAcceptor_not_isCompHook (e : Event) (h : e.isAcceptor = true) :
    e.isCompHook = false := by
  cases e <;> simp_all [Event.isAcceptor, Event.isCompHook]

/-- A trace of network events has no component hooks. -/
theorem filter_isCompHook_of_network (l : List Event)
    (h : l.all Event.isNetwork = true) : l.filter Event.isCompHook = [] := by
  induction l with
  | nil => rfl
  | cons x xs ih =>
      simp only [List.all_cons, Bool.and_eq_true] at h
      simp [List.filter_cons, isNetwork_not_isCompHook x h.1, ih h.2]

/-- A trace of network events has no acceptor launches. -/
theorem filter_isAcceptor_of_network (l : List Event)
    (h : l.all Event.isNetwork = true) : l.filter Event.isAcceptor = [] := by
  induction l with
  | nil => rfl
  | cons x xs ih =>
      simp only [List.all_cons, Bool.and_eq_true] at h
      simp [List.filter_cons, isNetwork_not_isAcceptor x h.1, ih h.2]

/-- The `Init` hook events are all component hooks. -/
theorem filter_isCompHook_initEvents (cs : List Comp) :
    (initEvents cs).filter Event.isCompHook = initEvents cs := by
  apply List.filter_eq_self.mpr
  intro a ha
  obtain ⟨c, _, rfl⟩ := List.mem_map.mp ha
  rfl

/-- The `AfterInit` hook events are all component hooks. -/
theorem filter_isCompHook_afterInitEvents (cs : List Comp) :
    (afterInitEvents cs).filter Event.isCompHook = afterInitEvents cs := by
  apply List.filter_eq_self.mpr
  intro a ha
  obtain ⟨c, _, rfl⟩ := List.mem_map.mp ha
  rfl

/-- The `BeforeShutdown` hook events are all component hooks. -/
theorem filter_isCompHook_beforeShutdownEvents (cs : List Comp) :
    (cs.map (fun c => Event.compBeforeShutdown c.id)).filter Event.isCompHook
      = cs.map (fun c => Event.compBeforeShutdown c.id) := by
  apply List.filter_eq_self.mpr
  intro a ha
  obtain ⟨c, _, rfl⟩ := List.mem_map.mp ha
  rfl

/-- The `Shutdown` hook events are all component hooks. -/
theorem filter_isCompHook_shutdownEvents (cs : List Comp) :
    (cs.map (fun c => Event.compShutdown c.id)).filter Event.isCompHook
      = cs.map (fun c => Event.compShutdown c.id) := by
  apply List.filter_eq_self.mpr
  intro a ha
  obtain ⟨c, _, rfl⟩ := List.mem_map.mp ha
  rfl

/-! Concrete fixtures used by the witnesses and counterexamples. -/

/-- An environment in which every listen and dial succeeds and the master's
registration response is the empty member list. -/
def envAllOk : NetEnv where
  listenOk := fun _ => true
  dialOk := fun _ => true
  registerResp := some []

/-- An environment in which the registration RPC to the master fails. -/
def envRegisterFails : NetEnv where
  listenOk := fun _ => true
  dialOk := fun _ => true
  registerResp := none

/-- A valid master configuration with two components. -/
def masterNode : Node where
  IsMaster := true
  AdvertiseAddr := "127.0.0.1:9000"
  MemberAddr := "127.0.0.1:9001"
  ServerAddr := ":3250"
  Components := [⟨0, ["svcA"], none⟩, ⟨1, ["svcB"], none⟩]
  IsWebsocket := false
  TSLCertificate := ""
  TSLKey := ""

/-- A master configuration whose `MemberAddr` is empty. -/
def masterNoMemberAddr : Node where
  IsMaster := true
  AdvertiseAddr := "127.0.0.1:9000"
  MemberAddr := ""
  ServerAddr := ":3250"
  Components := [⟨0, ["svcA"], none⟩]
  IsWebsocket := false
  TSLCertificate := ""
  TSLKey := ""

/-- A member configuration with the malformed member address "noport". -/
def memberNoPort : Node where
  IsMaster := false
  AdvertiseAddr := "127.0.0.1:9000"
  MemberAddr := "noport"
  ServerAddr := ":3250"
  Components := [⟨0, ["svcA"], none⟩]
  IsWebsocket := false
  TSLCertificate := ""
  TSLKey := ""

/-- A valid member configuration. -/
def memberNode : Node where
  IsMaster := false
  AdvertiseAddr := "127.0.0.1:9000"
  MemberAddr := "127.0.0.1:9001"
  ServerAddr := ":3251"
  Components := [⟨0, ["svcA"], none⟩, ⟨1, ["svcB"], none⟩]
  IsWebsocket := false
  TSLCertificate := ""
  TSLKey := ""

/-- A standalone node hosting three components A, B, C (ids 0, 1, 2). -/
def standaloneABC : Node where
  IsMaster := false
  AdvertiseAddr := ""
  MemberAddr := ""
  ServerAddr := ":3250"
  Components := [⟨0, ["a"], none⟩, ⟨1, ["b"], none⟩, ⟨2, ["c"], none⟩]
  IsWebsocket := false
  TSLCertificate := ""
  TSLKey := ""

/-- A websocket node with a certificate path set and an empty key path. -/
def wsCertNoKey : Node where
  IsMaster := false
  AdvertiseAddr := ""
  MemberAddr := ""
  ServerAddr := ":3250"
  Components := []
  IsWebsocket := true
  TSLCertificate := "cert.pem"
  TSLKey := ""

/-! The claim theorems. -/

/-- C1: for every valid master configuration, immediately after a
successful `Startup` the topology's member list contains a `Member` with
`isMaster = true`, `memberType = "master"` and `memberAddress` equal to the
configured `MemberAddr`, and no registration RPC was performed to insert
it. -/
theorem C1_master_self_registration (n : Node) (env : NetEnv) (st : NodeState)
    (hm : n.IsMaster = true) (hok : (Startup n env).2 = Except.ok st) :
    (∃ m ∈ st.members, m.isMaster = true ∧ m.memberInfo.memberType = "master"
        ∧ m.memberInfo.memberAddr = n.MemberAddr)
    ∧ ∀ a, Event.registerRPC a ∉ (Startup n env).1 := by
  obtain ⟨hreg, ev, hboot, heq⟩ := startup_ok_inv n env st hok
  unfold bootstrap at hboot
  rw [hm] at hboot
  simp only [if_true] at hboot
  unfold initMaster at hboot
  split at hboot
  · injection hboot with hev hst
    injection hst with hst
    constructor
    · exact ⟨selfMember n, by rw [← hst]; exact List.mem_singleton.mpr rfl,
        rfl, rfl, rfl⟩
    · intro a hmem
      have h1 : (Startup n env).1
          = ev ++ initEvents n.Components ++ afterInitEvents n.Components
            ++ [acceptorEvent n] := congrArg Prod.fst heq
      rw [h1, ← hev] at hmem
      rcases List.mem_append.mp hmem with h | h
      · rcases List.mem_append.mp h with h | h
        · rcases List.mem_append.mp h with h | h
          · rcases List.mem_cons.mp h with h | h
            · exact Event.noConfusion h
            · rcases List.mem_cons.mp h with h | h
              · exact Event.noConfusion h
              · exact List.not_mem_nil _ h
          · obtain ⟨c, _, hc⟩ := List.mem_map.mp h
            exact Event.noConfusion hc
        · obtain ⟨c, _, hc⟩ := List.mem_map.mp h
          exact Event.noConfusion hc
      · rcases List.mem_cons.mp h with h | h
        · have ha := acceptorEvent_isAcceptor n
          rw [← h] at ha
          exact Bool.noConfusion ha
        · exact List.not_mem_nil _ h
  · injection hboot with hev hst
    exact Except.noConfusion hst

/-- Witness for C1 at the concrete master configuration `masterNode` in the
all-ok environment. -/
theorem C1_witness :
    (∃ m ∈ (masterState masterNode).members, m.isMaster = true
        ∧ m.memberInfo.memberType = "master"
        ∧ m.memberInfo.memberAddr = masterNode.MemberAddr)
    ∧ ∀ a, Event.registerRPC a ∉ (Startup masterNode envAllOk).1 :=
  C1_master_self_registration masterNode envAllOk (masterState masterNode) rfl rfl

/-- C2: for every component list registered in order, a successful
`Startup` performs the `Init` hooks in registration order, then the
`AfterInit` hooks in registration order, and the acceptor launch is the
last event (so every hook precedes it); `Shutdown` performs the
`BeforeShutdown` hooks in reverse registration order, then the `Shutdown`
hooks in reverse registration order. -/
theorem C2_hook_ordering (n : Node) (env : NetEnv) (st : NodeState)
    (hok : (Startup n env).2 = Except.ok st) :
    (Startup n env).1.filter Event.isCompHook
        = initEvents n.Components ++ afterInitEvents n.Components
    ∧ (Startup n env).1.getLast? = some (acceptorEvent n)
    ∧ (Shutdown n st).1.filter Event.isCompHook
        = n.Components.reverse.map (fun c => Event.compBeforeShutdown c.id)
          ++ n.Components.reverse.map (fun c => Event.compShutdown c.id) := by
  obtain ⟨hreg, ev, hboot, heq⟩ := startup_ok_inv n env st hok
  have h1 : (Startup n env).1
      = ev ++ initEvents n.Components ++ afterInitEvents n.Components
        ++ [acceptorEvent n] := congrArg Prod.fst heq
  have hnet : ev.all Event.isNetwork = true := by
    have := bootstrap_all_network n env
    rw [hboot] at this
    exact this
  refine ⟨?_, ?_, ?_⟩
  · rw [h1]
    rw [List.filter_append, List.filter_append, List.filter_append]
    rw [filter_isCompHook_of_network ev hnet,
      filter_isCompHook_initEvents, filter_isCompHook_afterInitEvents]
    simp [List.filter_cons, isAcceptor_not_isCompHook _ (acceptorEvent_isAcceptor n)]
  · rw [h1]
    rw [show ev ++ initEvents n.Components ++ afterInitEvents n.Components
          ++ [acceptorEvent n]
        = (ev ++ initEvents n.Components ++ afterInitEvents n.Components)
          ++ [acceptorEvent n] from rfl]
    exact List.getLast?_concat _
  · unfold Shutdown
    rw [List.filter_append, List.filter_append]
    rw [filter_isCompHook_beforeShutdownEvents, filter_isCompHook_shutdownEvents]
    cases st.masterServer <;> simp [Event.isCompHook]

/-- Witness for C2 at the standalone node hosting components 0, 1, 2. -/
theorem C2_witness :
    (Startup standaloneABC envAllOk).1.filter Event.isCompHook
        = initEvents standaloneABC.Components
          ++ afterInitEvents standaloneABC.Components
    ∧ (Startup standaloneABC envAllOk).1.getLast?
        = some (acceptorEvent standaloneABC)
    ∧ (Shutdown standaloneABC standaloneState).1.filter Event.isCompHook
        = standaloneABC.Components.reverse.map
            (fun c => Event.compBeforeShutdown c.id)
          ++ standaloneABC.Components.reverse.map
              (fun c => Event.compShutdown c.id) :=
  C2_hook_ordering standaloneABC envAllOk standaloneState rfl

/-- C3: for a master configuration with an empty advertise address, or a
member configuration (non-master, advertise address set) whose member
address is empty or not of the form host:port, `Startup` returns the
configuration error and its trace is empty — in particular no listener is
opened and no dial occurs before failing. -/
theorem C3_config_error_no_network (n : Node) (env : NetEnv)
    (hreg : registerComponents n.Components = none)
    (hbad : (n.IsMaster = true ∧ n.AdvertiseAddr = "")
        ∨ (n.IsMaster = false ∧ n.AdvertiseAddr ≠ ""
            ∧ memberAddrInvalid n.MemberAddr = true)) :
    ((Startup n env).2 = Except.error "advertise address cannot be empty in master node"
      ∨ (Startup n env).2
          = Except.error ("member address (" ++ n.MemberAddr ++ ") invalid in cluster mode"))
    ∧ (Startup n env).1 = [] := by
  rcases hbad with ⟨hm, hadv⟩ | ⟨hm, hadv, hinv⟩
  · constructor
    · left
      simp [Startup, hm, hadv]
    · simp [Startup, hm, hadv]
  · constructor
    · right
      simp [Startup, bootstrap, initMember, hm, hadv, hinv, hreg]
    · simp [Startup, bootstrap, initMember, hm, hadv, hinv, hreg]

/-- Witness for C3 at the member configuration whose member address is
"noport". -/
theorem C3_witness :
    ((Startup memberNoPort envAllOk).2
        = Except.error "advertise address cannot be empty in master node"
      ∨ (Startup memberNoPort envAllOk).2
          = Except.error ("member address (" ++ memberNoPort.MemberAddr
              ++ ") invalid in cluster mode"))
    ∧ (Startup memberNoPort envAllOk).1 = [] :=
  C3_config_error_no_network memberNoPort envAllOk rfl
    (Or.inr ⟨rfl, by decide, by decide⟩)

/-- C4 counterexample: a master node with an empty `MemberAddr` starts
successfully — `Startup` never validates the master's member address, so
the claim that a master's `Startup` fails on an empty or malformed member
address is false. -/
theorem C4_counterexample :
    masterNoMemberAddr.IsMaster = true
    ∧ masterNoMemberAddr.MemberAddr = ""
    ∧ (Startup masterNoMemberAddr envAllOk).2
        = Except.ok (masterState masterNoMemberAddr) :=
  ⟨rfl, rfl, rfl⟩

/-- C4 (amended): the member-address validation applies only on the member
path — a member (non-master with advertise address set) whose member
address is empty or malformed fails `Startup`, while a master node's
member address is never validated and its `Startup` succeeds (given a
non-empty advertise address, registrable components and a successful
listen) whatever `MemberAddr` holds. -/
theorem C4_member_only_validation :
    (∀ (n : Node) (env : NetEnv), n.IsMaster = false → n.AdvertiseAddr ≠ "" →
        memberAddrInvalid n.MemberAddr = true →
        registerComponents n.Components = none →
        (Startup n env).2
          = Except.error ("member address (" ++ n.MemberAddr ++ ") invalid in cluster mode"))
    ∧ (∀ (n : Node) (env : NetEnv), n.IsMaster = true → n.AdvertiseAddr ≠ "" →
        env.listenOk n.AdvertiseAddr = true →
        registerComponents n.Components = none →
        (Startup n env).2 = Except.ok (masterState n)) := by
  constructor
  · intro n env hm hadv hinv hreg
    simp [Startup, bootstrap, initMember, hm, hadv, hinv, hreg]
  · intro n env hm hadv hl hreg
    simp [Startup, bootstrap, initMaster, hm, hadv, hl, hreg]

/-- Witness for the amended C4: the validation fires for the member
configuration "noport" and a master with an empty member address starts. -/
theorem C4_witness :
    (Startup memberNoPort envAllOk).2
        = Except.error ("member address (" ++ memberNoPort.MemberAddr
            ++ ") invalid in cluster mode")
    ∧ (Startup masterNoMemberAddr envAllOk).2
        = Except.ok (masterState masterNoMemberAddr) :=
  ⟨C4_member_only_validation.1 memberNoPort envAllOk rfl (by decide) (by decide) rfl,
   C4_member_only_validation.2 masterNoMemberAddr envAllOk rfl (by decide) rfl rfl⟩

/-- C5: for every member node, when the connection to the master cannot be
obtained or the registration RPC fails, `Startup` returns an error and the
node is not started — no component `Init`/`AfterInit` hook runs and no
acceptor is launched. -/
theorem C5_registration_failure_aborts (n : Node) (env : NetEnv)
    (hm : n.IsMaster = false) (hadv : n.AdvertiseAddr ≠ "")
    (hreg : registerComponents n.Components = none)
    (hrpc : env.dialOk n.AdvertiseAddr = false ∨ env.registerResp = none) :
    (∃ e, (Startup n env).2 = Except.error e)
    ∧ ∀ ev ∈ (Startup n env).1, ev.isCompHook = false ∧ ev.isAcceptor = false := by
  have hfail : ∃ e ev, bootstrap n env = (ev, Except.error e) := by
    unfold bootstrap initMember
    rw [hm]
    simp only [Bool.false_eq_true, if_false, hadv, if_true, ne_eq,
      not_false_iff]
    split
    · exact ⟨_, _, rfl⟩
    · split
      · exact ⟨_, _, rfl⟩
      · split
        · exact ⟨_, _, rfl⟩
        · rename_i hval hlis hdial
          split
          · exact ⟨_, _, rfl⟩
          · rename_i members hresp
            exfalso
            rcases hrpc with h | h
            · rw [h] at hdial
              simp at hdial
            · rw [h] at hresp
              exact Option.noConfusion hresp
  obtain ⟨e, ev, hboot⟩ := hfail
  have hstart : Startup n env = (ev, Except.error e) := by
    unfold Startup
    rw [hm]
    simp only [Bool.false_and, if_neg, hreg, hboot]
    simp [hboot]
  constructor
  · exact ⟨e, by rw [hstart]⟩
  · intro x hx
    have hnet : ev.all Event.isNetwork = true := by
      have := bootstrap_all_network n env
      rw [hboot] at this
      exact this
    have hxn : x.isNetwork = true := by
      rw [hstart] at hx
      exact List.all_eq_true.mp hnet x hx
    exact ⟨isNetwork_not_isCompHook x hxn, isNetwork_not_isAcceptor x hxn⟩

/-- Witness for C5 at the valid member configuration in the environment
whose registration RPC fails. -/
theorem C5_witness :
    (∃ e, (Startup memberNode envRegisterFails).2 = Except.error e)
    ∧ ∀ ev ∈ (Startup memberNode envRegisterFails).1,
        ev.isCompHook = false ∧ ev.isAcceptor = false :=
  C5_registration_failure_aborts memberNode envRegisterFails rfl (by decide)
    rfl (Or.inr rfl)

/-- C6: evaluating the master bootstrap at a concrete valid master
configuration shows that exactly one listener is opened — on the advertise
address — and that although the MemberInbound server object is created
(`memberServer = true`) it is never served and no listener is bound at
`MemberAddr` (`memberServing = false`, no `serveMember` event), contrary
to the claimed second listener. -/
theorem C6_master_single_listener :
    (Startup masterNode envAllOk).1.filter Event.isListen
        = [Event.listen masterNode.AdvertiseAddr]
    ∧ (Startup masterNode envAllOk).2 = Except.ok (masterState masterNode)
    ∧ (masterState masterNode).memberServer = true
    ∧ (masterState masterNode).memberServing = false
    ∧ ∀ a, Event.serveMember a ∉ (Startup masterNode envAllOk).1 := by
  refine ⟨rfl, rfl, rfl, rfl, ?_⟩
  intro a h
  have htr : (Startup masterNode envAllOk).1
      = [Event.listen "127.0.0.1:9000", Event.serveMaster "127.0.0.1:9000",
         Event.compInit 0, Event.compInit 1, Event.compAfterInit 0,
         Event.compAfterInit 1, Event.acceptorPlain ":3250"] := rfl
  rw [htr] at h
  simp at h

/-- The `Init` hook events contain no acceptor launch. -/
theorem filter_isAcceptor_initEvents (cs : List Comp) :
    (initEvents cs).filter Event.isAcceptor = [] := by
  rw [List.filter_eq_nil_iff]
  intro a ha
  obtain ⟨c, _, rfl⟩ := List.mem_map.mp ha
  simp [Event.isAcceptor]

/-- The `AfterInit` hook events contain no acceptor launch. -/
theorem filter_isAcceptor_afterInitEvents (cs : List Comp) :
    (afterInitEvents cs).filter Event.isAcceptor = [] := by
  rw [List.filter_eq_nil_iff]
  intro a ha
  obtain ⟨c, _, rfl⟩ := List.mem_map.mp ha
  simp [Event.isAcceptor]

/-- C7 counterexample: with `IsWebsocket` set, a certificate path set and
an empty key path, `Startup` launches the WebSocket-over-TLS acceptor —
refuting the claim that TLS is selected only when both the certificate and
the key paths are set. -/
theorem C7_counterexample :
    wsCertNoKey.IsWebsocket = true ∧ wsCertNoKey.TSLKey = ""
    ∧ (Startup wsCertNoKey envAllOk).1.getLast?
        = some (Event.acceptorWSTLS wsCertNoKey.ServerAddr) :=
  ⟨rfl, rfl, rfl⟩

/-- C7 (amended): a successful `Startup` launches exactly one acceptor
loop, as its last event, selected by configuration: plain stream-socket
when `IsWebsocket` is false, WebSocket when `IsWebsocket` is true and the
TLS certificate path is empty, and WebSocket-over-TLS whenever
`IsWebsocket` is true and the certificate path is non-empty — the key path
is not consulted by the selection. -/
theorem C7_acceptor_selection (n : Node) (env : NetEnv) (st : NodeState)
    (hok : (Startup n env).2 = Except.ok st) :
    (Startup n env).1.filter Event.isAcceptor = [acceptorEvent n]
    ∧ (Startup n env).1.getLast? = some (acceptorEvent n)
    ∧ acceptorEvent n =
        (if n.IsWebsocket then
          (if n.TSLCertificate = "" then Event.acceptorWS n.ServerAddr
           else Event.acceptorWSTLS n.ServerAddr)
         else Event.acceptorPlain n.ServerAddr) := by
  obtain ⟨hreg, ev, hboot, heq⟩ := startup_ok_inv n env st hok
  have h1 : (Startup n env).1
      = ev ++ initEvents n.Components ++ afterInitEvents n.Components
        ++ [acceptorEvent n] := congrArg Prod.fst heq
  have hnet : ev.all Event.isNetwork = true := by
    have := bootstrap_all_network n env
    rw [hboot] at this
    exact this
  refine ⟨?_, ?_, ?_⟩
  · rw [h1, List.filter_append, List.filter_append, List.filter_append,
      filter_isAcceptor_of_network ev hnet, filter_isAcceptor_initEvents,
      filter_isAcceptor_afterInitEvents]
    simp [List.filter_cons, acceptorEvent_isAcceptor n]
  · rw [h1]
    rw [show ev ++ initEvents n.Components ++ afterInitEvents n.Components
          ++ [acceptorEvent n]
        = (ev ++ initEvents n.Components ++ afterInitEvents n.Components)
          ++ [acceptorEvent n] from rfl]
    exact List.getLast?_concat _
  · unfold acceptorEvent
    by_cases hw : n.IsWebsocket
    · by_cases hc : n.TSLCertificate = ""
      · simp [hw, hc]
      · have hl : n.TSLCertificate.length ≠ 0 := by
          intro h0
          apply hc
          apply String.ext
          rwa [String.length, List.length_eq_zero] at h0
        simp [hw, hc, hl]
    · simp [hw]

/-- Witness for the amended C7 at the websocket configuration with a
certificate and no key. -/
theorem C7_witness :
    (Startup wsCertNoKey envAllOk).1.filter Event.isAcceptor
        = [acceptorEvent wsCertNoKey]
    ∧ (Startup wsCertNoKey envAllOk).1.getLast? = some (acceptorEvent wsCertNoKey)
    ∧ acceptorEvent wsCertNoKey =
        (if wsCertNoKey.IsWebsocket then
          (if wsCertNoKey.TSLCertificate = ""
           then Event.acceptorWS wsCertNoKey.ServerAddr
           else Event.acceptorWSTLS wsCertNoKey.ServerAddr)
         else Event.acceptorPlain wsCertNoKey.ServerAddr) :=
  C7_acceptor_selection wsCertNoKey envAllOk standaloneState rfl

/-- C8: each of the four member-inbound handlers is an unimplemented stub
that panics with "implement me" on every envelope; no dispatch happens and
no error is ever translated into a result envelope. -/
theorem C8_handlers_panic :
    HandleRequest standaloneState ⟨"payload"⟩ = HandleOutcome.panicked "implement me"
    ∧ HandleNotify standaloneState ⟨"payload"⟩ = HandleOutcome.panicked "implement me"
    ∧ HandlePush standaloneState ⟨"payload"⟩ = HandleOutcome.panicked "implement me"
    ∧ HandleResponse standaloneState ⟨"payload"⟩ = HandleOutcome.panicked "implement me"
    ∧ ∀ (st : NodeState) (m : Envelope) (e : Option String),
        HandleRequest st m ≠ HandleOutcome.replied e :=
  ⟨rfl, rfl, rfl, rfl, fun _ _ _ h => HandleOutcome.noConfusion h⟩

/-- Looking up the key just inserted finds the inserted address. -/
theorem lookupRemote_insertRemote_self (reg : List (String × String))
    (s a : String) : lookupRemote (insertRemote reg s a) s = some a := by
  induction reg with
  | nil => simp [insertRemote, lookupRemote]
  | cons p rest ih =>
      obtain ⟨x, y⟩ := p
      by_cases h : x = s
      · simp [insertRemote, lookupRemote, h]
      · simp [insertRemote, lookupRemote, h, ih]

/-- Inserting any key with address `a` preserves a key already mapping to
`a`. -/
theorem lookupRemote_insertRemote_preserve (reg : List (String × String))
    (x s a : String) (h : lookupRemote reg s = some a) :
    lookupRemote (insertRemote reg x a) s = some a := by
  induction reg with
  | nil => simp [lookupRemote] at h
  | cons p rest ih =>
      obtain ⟨y, b⟩ := p
      simp only [insertRemote]
      by_cases hyx : y = x
      · rw [if_pos hyx]
        simp only [lookupRemote] at h ⊢
        by_cases hys : y = s
        · rw [if_pos hys]
        · rw [if_neg hys] at h ⊢
          exact h
      · rw [if_neg hyx]
        simp only [lookupRemote] at h ⊢
        by_cases hys : y = s
        · rw [if_pos hys] at h ⊢
          exact h
        · rw [if_neg hys] at h ⊢
          exact ih h

/-- After folding inserts of every service name with a fixed address, every
folded key (and every key already mapping to that address) maps to it. -/
theorem lookupRemote_foldl_insert (l : List String) (a s : String)
    (reg : List (String × String))
    (h : s ∈ l ∨ lookupRemote reg s = some a) :
    lookupRemote (l.foldl (fun r x => insertRemote r x a) reg) s = some a := by
  induction l generalizing reg with
  | nil =>
      rcases h with h | h
      · exact absurd h (List.not_mem_nil s)
      · simpa using h
  | cons x rest ih =>
      simp only [List.foldl_cons]
      rcases h with h | h
      · rcases List.mem_cons.mp h with rfl | hm
        · exact ih _ (Or.inr (lookupRemote_insertRemote_self reg s a))
        · exact ih _ (Or.inl hm)
      · exact ih _ (Or.inr (lookupRemote_insertRemote_preserve reg x s a h))

/-- C9: the `NewMember` handler never fails — for every incoming request it
returns an empty response under `Except.ok` (nil error), and in the new
state every announced service is registered to the announced member's
address while the rest of the node state is untouched. -/
theorem C9_newMember_never_fails (st : NodeState) (req : NewMemberRequest) :
    ∃ st', NewMember st req = Except.ok (st', NewMemberResponse.mk)
      ∧ (∀ s ∈ req.memberInfo.services,
          lookupRemote st'.remoteRegistry s = some req.memberInfo.memberAddr)
      ∧ st'.members = st.members ∧ st'.masterServer = st.masterServer
      ∧ st'.memberServer = st.memberServer
      ∧ st'.memberServing = st.memberServing := by
  refine ⟨{ st with
      remoteRegistry := addRemoteService st.remoteRegistry req.memberInfo },
    rfl, ?_, rfl, rfl, rfl, rfl⟩
  intro s hs
  show lookupRemote (addRemoteService st.remoteRegistry req.memberInfo) s
      = some req.memberInfo.memberAddr
  unfold addRemoteService
  exact lookupRemote_foldl_insert _ _ _ _ (Or.inl hs)

/-- C10: `Shutdown`'s only effects are the component hooks and, when the
node holds a master server, one graceful stop of that server — the
non-hook events are exactly that optional stop; the member server object
and its serving state are untouched either way; and on a node without a
master server the state is returned unchanged and no stop event occurs. -/
theorem C10_shutdown_frame (n : Node) (st : NodeState) :
    (Shutdown n st).1.filter (fun e => !e.isCompHook)
        = (if st.masterServer then [Event.gracefulStopMaster] else [])
    ∧ (Shutdown n st).2.memberServer = st.memberServer
    ∧ (Shutdown n st).2.memberServing = st.memberServing
    ∧ (st.masterServer = false →
        (Shutdown n st).2 = st
        ∧ Event.gracefulStopMaster ∉ (Shutdown n st).1) := by
  have hb : (n.Components.reverse.map
      (fun c => Event.compBeforeShutdown c.id)).filter
        (fun e => !e.isCompHook) = [] := by
    rw [List.filter_eq_nil_iff]
    intro a ha
    obtain ⟨c, _, rfl⟩ := List.mem_map.mp ha
    simp [Event.isCompHook]
  have hs2 : (n.Components.reverse.map
      (fun c => Event.compShutdown c.id)).filter
        (fun e => !e.isCompHook) = [] := by
    rw [List.filter_eq_nil_iff]
    intro a ha
    obtain ⟨c, _, rfl⟩ := List.mem_map.mp ha
    simp [Event.isCompHook]
  refine ⟨?_, ?_, ?_, ?_⟩
  · show ((Shutdown n st).1).filter (fun e => !e.isCompHook)
        = (if st.masterServer then [Event.gracefulStopMaster] else [])
    unfold Shutdown
    rw [List.filter_append, List.filter_append, hb, hs2]
    cases hms : st.masterServer <;> simp [Event.isCompHook]
  · unfold Shutdown
    cases hms : st.masterServer <;> simp
  · unfold Shutdown
    cases hms : st.masterServer <;> simp
  · intro h
    constructor
    · simp [Shutdown, h]
    · intro hmem
      simp only [Shutdown, h, Bool.false_eq_true, if_false, List.append_nil,
        List.mem_append, List.mem_map] at hmem
      rcases hmem with ⟨c, _, hc⟩ | ⟨c, _, hc⟩ <;> exact Event.noConfusion hc

end Nano
